import Mathlib

set_option linter.unusedVariables false

/-!
Shallow embedding of the GoMall concurrent order-processing core
(src/order.go together with the data model of src/database.go).

Modelling conventions:
- Go machine integers (`int`) become `Int`; record identifiers (`uint`
  primary keys) become `Nat`.
- The per-product stock channel (`StockChannel`, a capacity-1 channel used
  as a single-holder cell) is modelled as `stocks : Nat → Option Int`:
  `none` means no slot has been created for that product yet, `some v`
  means the slot exists and currently holds `v`.  Because every channel
  interaction in the source is a take immediately followed by a put while
  holding the value (strict serialization, spec invariant I5), the
  serialized semantics of a Deduct/Restore call is a pure function of the
  held value, which is what the embedding computes.
- The goroutine that asynchronously persists a new slot value to MySQL
  (`go func() { DB.Model(&Product{})...Update("stock", newStock) }()`)
  touches only the durable snapshot, which none of the verified claims
  observe; it is therefore elided.  The `current` mirror field of
  `StockChannel` is likewise a write-only mirror of the channel content
  and is elided.
- GORM transactions are modelled by running the statements against a
  working copy of the database; `Rollback` discards the copy (the caller
  keeps the original database) and `Commit` installs it.  Fallible
  statements consult a failure schedule `fs : Nat → Bool` indexed by the
  order in which write statements execute (`fs i = true` means the i-th
  write statement of the transaction reports an error); reads fail when
  the row is absent.
- `float64` prices feed only the order total, about which no claim states
  any arithmetic; they are carried as `Int` values.
-/

namespace GoMall

/-- Product row (src/database.go); the fields the order core reads. -/
structure Product where
  id : Nat
  price : Int
  stock : Int
  salesCount : Int
  status : Int
deriving DecidableEq

/-- Cart row (src/database.go `CartItem`). -/
structure CartItem where
  id : Nat
  userID : Nat
  productID : Nat
  quantity : Int
deriving DecidableEq

/-- Order row (src/database.go `Order`). -/
structure Order where
  id : Nat
  userID : Nat
  orderNo : String
  totalAmount : Int
  status : String
  shippingAddress : String
deriving DecidableEq

/-- Order line-item row (src/database.go `OrderItem`); the surrogate `ID`
primary key is never read by the order core and is elided. -/
structure OrderItem where
  orderID : Nat
  productID : Nat
  quantity : Int
  price : Int
deriving DecidableEq

/-- The relational state the order core reads and writes. -/
structure DB where
  products : List Product
  cartItems : List CartItem
  orders : List Order
  orderItems : List OrderItem
deriving DecidableEq

/-- Order status constant (src/order.go line 17). -/
def OrderStatusPending : String := "pending"

/-- Order status constant (src/order.go line 18). -/
def OrderStatusPaid : String := "paid"

/-- Order status constant (src/order.go line 19). -/
def OrderStatusShipped : String := "shipped"

/-- Order status constant (src/order.go line 20). -/
def OrderStatusDelivered : String := "delivered"

/-- Order status constant (src/order.go line 21). -/
def OrderStatusCancelled : String := "cancelled"

/-- Errors produced by the stock manager (src/order.go lines 230 and 239):
`noSlot` is the "无法获取商品 %d 的库存信息" failure of `getStockChannel`
returning nil, `insufficient` is the "商品 %d 库存不足，当前库存: %d，需要: %d"
failure carrying the current and the requested quantity. -/
inductive StockError where
  | noSlot (productID : Nat)
  | insufficient (productID : Nat) (current requested : Int)
deriving DecidableEq

/-- The global stock manager (src/order.go `StockManager`): the map from
product id to the value held by that product's stock channel. -/
structure StockManager where
  stocks : Nat → Option Int

/-- The freshly initialized manager (src/order.go `InitOrderService`). -/
def emptyStockManager : StockManager := ⟨fun _ => none⟩

/-- Overwrite one product's slot content (putting a value back into the
capacity-1 channel after having taken it). -/
def StockManager.setSlot (sm : StockManager) (productID : Nat) (v : Int) :
    StockManager :=
  ⟨fun p => if p = productID then some v else sm.stocks p⟩

/-- Primary-key lookup `DB.First(&product, productID)`. -/
def findProduct (db : DB) (productID : Nat) : Option Product :=
  db.products.find? (fun p => p.id == productID)

/-- src/order.go lines 199-224, `getStockChannel`, fused with the
channel receive its two callers immediately perform: returns the value
currently held by the product's slot together with the manager state
(a fresh slot, seeded from the persisted product stock, is registered in
the map when none exists).  Returns `none` when the product is absent
from the store, matching the nil return of the source. -/
def StockManager.getStockChannel (sm : StockManager) (db : DB)
    (productID : Nat) : Option (Int × StockManager) :=
  match sm.stocks productID with
  | some v => some (v, sm)
  | none =>
    match findProduct db productID with
    | none => none
    | some p => some (p.stock, sm.setSlot productID p.stock)

/-- src/order.go lines 227-252, `StockManager.DeductStock`: take the held
value; if it is below the requested quantity, put it back unchanged and
fail carrying current-vs-requested; otherwise put back the difference.
The asynchronous persistence goroutine is elided (see the header). -/
def StockManager.DeductStock (sm : StockManager) (db : DB)
    (productID : Nat) (quantity : Int) : Option StockError × StockManager :=
  match sm.getStockChannel db productID with
  | none => (some (.noSlot productID), sm)
  | some (currentStock, sm1) =>
    if currentStock < quantity then
      (some (.insufficient productID currentStock quantity), sm1)
    else
      (none, sm1.setSlot productID (currentStock - quantity))

/-- src/order.go lines 255-272, `StockManager.RestoreStock`: take the
held value and put back the sum.  Never fails once a slot exists. -/
def StockManager.RestoreStock (sm : StockManager) (db : DB)
    (productID : Nat) (quantity : Int) : Option StockError × StockManager :=
  match sm.getStockChannel db productID with
  | none => (some (.noSlot productID), sm)
  | some (currentStock, sm1) =>
    (none, sm1.setSlot productID (currentStock + quantity))

/-- One serialized call against a single product slot (claim C2's
sequences of `DeductStock` and `RestoreStock` calls). -/
inductive StockOp where
  | deduct (qty : Int)
  | restore (qty : Int)
deriving DecidableEq

/-- The quantity an operation carries. -/
def StockOp.qty : StockOp → Int
  | .deduct q => q
  | .restore q => q

/-- Accumulator for a serial run of stock operations: the manager state
plus the ghost totals of successfully deducted and restored quantities. -/
structure OpsAcc where
  sm : StockManager
  deducted : Int
  restored : Int

/-- Run a finite sequence of `DeductStock`/`RestoreStock` calls against
one product, serially, exactly as the slot channel forces; failed calls
leave the slot unchanged (the source puts the value back) and do not
count towards the ghost totals. -/
def runStockOps (db : DB) (productID : Nat) : OpsAcc → List StockOp → OpsAcc
  | acc, [] => acc
  | acc, .deduct q :: rest =>
    match acc.sm.DeductStock db productID q with
    | (some _, sm1) => runStockOps db productID ⟨sm1, acc.deducted, acc.restored⟩ rest
    | (none, sm1) => runStockOps db productID ⟨sm1, acc.deducted + q, acc.restored⟩ rest
  | acc, .restore q :: rest =>
    match acc.sm.RestoreStock db productID q with
    | (some _, sm1) => runStockOps db productID ⟨sm1, acc.deducted, acc.restored⟩ rest
    | (none, sm1) => runStockOps db productID ⟨sm1, acc.deducted, acc.restored + q⟩ rest

/-- Errors of the order-processing handlers (src/order.go): each
constructor corresponds to one `fmt.Errorf` site.  The
`inventoryCheckFailed`/`amountFailed` wrappers are the
"库存检查失败: %v" and "金额计算失败: %v" prefixes `processCreateOrder`
adds around the two goroutines' errors. -/
inductive OrderErr where
  | cartItemNotFound (itemID : Nat)
  | stock (e : StockError)
  | inventoryCheckFailed (e : OrderErr)
  | amountFailed (e : OrderErr)
  | orderNotFound
  | orderCreateFailed
  | orderItemCreateFailed
  | cartDeleteFailed
  | commitFailed
deriving DecidableEq

/-- The payload of a create job (src/order.go `CreateOrderRequest`). -/
structure CreateOrderRequest where
  shippingAddress : String
  cartItemIDs : List Nat
deriving DecidableEq

/-- A queued order job (src/order.go `OrderJob`); the result channel is
represented by the value the worker would send on it, so a job value in
the embedding is just the identifying fields. -/
structure OrderJob where
  orderID : Nat
  userID : Nat
  kind : String
  status : String
deriving DecidableEq

/-- Lookup `DB.Where("id = ? AND user_id = ?", itemID, userID).First(&cartItem)`. -/
def findCartItem (db : DB) (itemID userID : Nat) : Option CartItem :=
  db.cartItems.find? (fun c => c.id == itemID && c.userID == userID)

/-- Primary-key lookup `DB.First(&order, orderID)` (no user filter:
`processUpdateOrder` loads the order by id alone). -/
def findOrder (db : DB) (orderID : Nat) : Option Order :=
  db.orders.find? (fun o => o.id == orderID)

/-- Lookup `DB.Where("id = ? AND user_id = ?", oID, userID).First(&order)`
used by the `CancelOrder` entry point. -/
def findOrderOfUser (db : DB) (orderID userID : Nat) : Option Order :=
  db.orders.find? (fun o => o.id == orderID && o.userID == userID)

/-- src/order.go lines 673-687, `checkInventoryForOrder`: walk the
referenced cart item ids in order; a missing cart row fails with
"购物车项 %d 不存在", a failed deduction propagates the stock error.
Note that a failure returns immediately: deductions already granted to
earlier items are left in place (no `Restore` call exists on this path). -/
def checkInventoryForOrder (db : DB) (sm : StockManager) (userID : Nat) :
    List Nat → Option OrderErr × StockManager
  | [] => (none, sm)
  | itemID :: rest =>
    match findCartItem db itemID userID with
    | none => (some (.cartItemNotFound itemID), sm)
    | some cartItem =>
      match sm.DeductStock db cartItem.productID cartItem.quantity with
      | (some e, sm1) => (some (.stock e), sm1)
      | (none, sm1) => checkInventoryForOrder db sm1 userID rest

/-- src/order.go lines 690-703, `calculateOrderAmount`: sum
`product.price * quantity` over the referenced cart items, looked up by
id alone (`DB.First(&cartItem, itemID)`, no user filter); a missing row
fails.  A cart row whose product is absent contributes the zero value
GORM would leave in the preloaded struct. -/
def calculateOrderAmount (db : DB) : List Nat → Except OrderErr Int
  | [] => .ok 0
  | itemID :: rest =>
    match db.cartItems.find? (fun c => c.id == itemID) with
    | none => .error (.amountFailed (.cartItemNotFound itemID))
    | some cartItem =>
      match calculateOrderAmount db rest with
      | .error e => .error e
      | .ok total =>
        .ok ((findProduct db cartItem.productID).elim 0 (fun p => p.price)
              * cartItem.quantity + total)

/-- Zero-pad to width 4, the `%04d` verb of the order-number format
(the random suffix is drawn from `rand.Intn(9999)`, so it has at most
four digits). -/
def pad4 (n : Nat) : String :=
  if n < 10 then "000" ++ toString n
  else if n < 100 then "00" ++ toString n
  else if n < 1000 then "0" ++ toString n
  else toString n

/-- src/order.go lines 784-788, `generateOrderNumber`:
`fmt.Sprintf("OM%d%04d", timestamp, random)`.  The wall clock and the
random source are the two `Nat` parameters. -/
def generateOrderNumber (timestamp random : Nat) : String :=
  "OM" ++ toString timestamp ++ pad4 random

/-- The id the store would assign to the next inserted order row. -/
def freshOrderID (db : DB) : Nat :=
  (db.orders.map (fun o => o.id)).foldr max 0 + 1

/-- Increment a product's sales counter:
`tx.Model(&Product{}).Where("id = ?", pid).UpdateColumn("sales_count", gorm.Expr("sales_count + ?", qty))`. -/
def bumpSales (products : List Product) (productID : Nat) (qty : Int) :
    List Product :=
  products.map (fun p =>
    if p.id == productID then
      { p with salesCount := p.salesCount + qty }
    else p)

/-- The working state of an open transaction: the transaction's copy of
the database plus the index of the next write statement, used to consult
the failure schedule. -/
structure TxCtx where
  db : DB
  idx : Nat
deriving DecidableEq

/-- The three writes of one iteration of the per-cart-item loop
(src/order.go lines 736-756) applied to the transaction's working copy:
insert the order-item row snapshotting quantity and the current unit
price, delete the cart row, and increment the product's sales counter —
unless the counter statement failed: its error is DISCARDED by the
source, so that failure merely skips the increment.  (`idx` is the
schedule index of the order-item insert; the two statements that abort
the transaction on failure are checked by the caller before this
function is reached, so only results of complete iterations appear.) -/
def txItemEffects (fs : Nat → Bool) (idx : Nat) (db : DB)
    (cartItem : CartItem) (orderID : Nat) : DB :=
  let orderItem : OrderItem :=
    { orderID := orderID
      productID := cartItem.productID
      quantity := cartItem.quantity
      price := (findProduct db cartItem.productID).elim 0 (fun p => p.price) }
  let db1 := { db with orderItems := db.orderItems ++ [orderItem] }
  let db2 := { db1 with cartItems := db1.cartItems.filter (fun c => c.id != cartItem.id) }
  if fs (idx + 2) then db2
  else { db2 with products := bumpSales db2.products cartItem.productID cartItem.quantity }

/-- The per-cart-item loop of src/order.go lines 728-757: load the cart
row (fails when absent), then — unless the order-item insert or the cart
delete statement fails, each of which aborts the transaction
(`tx.Rollback()` and return) — apply the iteration's writes and
continue.  Each iteration advances the failure-schedule index by its
three write statements. -/
def createOrderItems (fs : Nat → Bool) (userID orderID : Nat) :
    List Nat → TxCtx → Except OrderErr TxCtx
  | [], ctx => .ok ctx
  | itemID :: rest, ctx =>
    match ctx.db.cartItems.find? (fun c => c.id == itemID && c.userID == userID) with
    | none => .error (.cartItemNotFound itemID)
    | some cartItem =>
      if fs ctx.idx then .error .orderItemCreateFailed
      else if fs (ctx.idx + 1) then .error .cartDeleteFailed
      else
        createOrderItems fs userID orderID rest
          { db := txItemEffects fs ctx.idx ctx.db cartItem orderID, idx := ctx.idx + 3 }

/-- src/order.go lines 706-765, `createOrderInDB`: open a transaction,
insert the order row (the insert fails on an injected failure or on an
order-number uniqueness violation, and is attempted exactly once — there
is no regenerate-and-retry), run the per-item loop, and commit.  Every
checked error path calls `tx.Rollback()` and returns, which in the
embedding is the `.error` result: the caller's database is untouched. -/
def createOrderInDB (fs : Nat → Bool) (db : DB) (userID : Nat)
    (req : CreateOrderRequest) (totalAmount : Int) (timestamp random : Nat) :
    Except OrderErr DB :=
  let orderNo := generateOrderNumber timestamp random
  let order : Order :=
    { id := freshOrderID db
      userID := userID
      orderNo := orderNo
      totalAmount := totalAmount
      status := OrderStatusPending
      shippingAddress := req.shippingAddress }
  if fs 0 || db.orders.any (fun o => o.orderNo == orderNo) then
    .error .orderCreateFailed
  else
    match createOrderItems fs userID order.id req.cartItemIDs
        { db := { db with orders := db.orders ++ [order] }, idx := 1 } with
    | .error e => .error e
    | .ok ctx =>
      if fs ctx.idx then .error .commitFailed
      else .ok ctx.db

/-- The database visible after `createOrderInDB` returns: on error the
transaction was rolled back, so the original database is what remains
observable. -/
def dbAfterCreateOrder (fs : Nat → Bool) (db : DB) (userID : Nat)
    (req : CreateOrderRequest) (totalAmount : Int) (timestamp random : Nat) :
    DB :=
  match createOrderInDB fs db userID req totalAmount timestamp random with
  | .error _ => db
  | .ok db1 => db1

/-- src/order.go lines 122-162, `processCreateOrder`: the inventory
check and the amount computation run in two goroutines; the inventory
goroutine is the only one that mutates state.  The source collects their
errors in a channel and returns the first one received; the embedding
returns the inventory error first (whenever a deduction fails and all
referenced cart rows exist — the shape every verified claim is about —
the amount goroutine cannot fail, so the two agree).  When both succeed
the order is persisted by `createOrderInDB`. -/
def processCreateOrder (fs : Nat → Bool) (db : DB) (sm : StockManager)
    (userID : Nat) (req : CreateOrderRequest) (timestamp random : Nat) :
    Except OrderErr DB × StockManager :=
  match checkInventoryForOrder db sm userID req.cartItemIDs with
  | (some e, sm1) => (.error (.inventoryCheckFailed e), sm1)
  | (none, sm1) =>
    match calculateOrderAmount db req.cartItemIDs with
    | .error e => (.error e, sm1)
    | .ok totalAmount =>
      (createOrderInDB fs db userID req totalAmount timestamp random, sm1)

/-- The database visible after a create job: an error from any phase
means no transaction committed, so the original database remains. -/
def dbAfterProcessCreate (fs : Nat → Bool) (db : DB) (sm : StockManager)
    (userID : Nat) (req : CreateOrderRequest) (timestamp random : Nat) : DB :=
  match (processCreateOrder fs db sm userID req timestamp random).1 with
  | .error _ => db
  | .ok db1 => db1

/-- The status write `DB.Model(&order).Update("status", status)`, keyed
by the loaded order's primary key. -/
def setOrderStatus (db : DB) (orderID : Nat) (status : String) : DB :=
  { db with
    orders := db.orders.map (fun o =>
      if o.id == orderID then { o with status := status } else o) }

/-- The per-item loop of src/order.go lines 775-780: call `RestoreStock`
once per order item with that item's product id and quantity; a failed
restore is only logged, the loop continues.  Alongside the resulting
manager state the embedding records the trace of (productID, quantity)
calls issued. -/
def restoreStockLoop (db : DB) :
    List OrderItem → StockManager → List (Nat × Int) →
    StockManager × List (Nat × Int)
  | [], sm, calls => (sm, calls)
  | item :: rest, sm, calls =>
    restoreStockLoop db rest
      (sm.RestoreStock db item.productID item.quantity).2
      (calls ++ [(item.productID, item.quantity)])

/-- src/order.go lines 768-781, `restoreOrderStock`: load the order's
items (`DB.Where("order_id = ?", orderID).Find`) and restore each. -/
def restoreOrderStock (db : DB) (sm : StockManager) (orderID : Nat) :
    StockManager × List (Nat × Int) :=
  restoreStockLoop db (db.orderItems.filter (fun i => i.orderID == orderID)) sm []

/-- The observable outcome of one status-update job: the worker's result
value, the database and stock-manager states after the job (including
the detached restoration goroutine, which the embedding runs to
completion), whether that goroutine was spawned, and the trace of
`RestoreStock` calls it issued. -/
structure UpdateOutcome where
  err : Option OrderErr
  db : DB
  sm : StockManager
  restoreTriggered : Bool
  restoreCalls : List (Nat × Int)

/-- src/order.go lines 165-184, `processUpdateOrder`: load the order by
id (its current status and its owner are NOT consulted), write the
requested status, and — exactly when the requested status is
`cancelled` — spawn the detached stock restoration. -/
def processUpdateOrder (db : DB) (sm : StockManager) (orderID : Nat)
    (status : String) : UpdateOutcome :=
  match findOrder db orderID with
  | none => ⟨some .orderNotFound, db, sm, false, []⟩
  | some _ =>
    let db1 := setOrderStatus db orderID status
    if status == OrderStatusCancelled then
      let r := restoreOrderStock db1 sm orderID
      ⟨none, db1, r.1, true, r.2⟩
    else
      ⟨none, db1, sm, false, []⟩

/-- src/order.go lines 187-194, `processCancelOrder`: delegate to the
update handler with a `cancelled` payload. -/
def processCancelOrder (db : DB) (sm : StockManager) (orderID : Nat) :
    UpdateOutcome :=
  processUpdateOrder db sm orderID OrderStatusCancelled

/-- The `validStatuses` membership test of src/order.go lines 576-587:
a five-key set lookup. -/
def validStatus (s : String) : Bool :=
  (s == OrderStatusPending) || (s == OrderStatusPaid) ||
  (s == OrderStatusShipped) || (s == OrderStatusDelivered) ||
  (s == OrderStatusCancelled)

/-- src/order.go lines 561-617, the `UpdateOrderStatus` entry point,
restricted to its decision logic: an unknown status value is rejected
before any job is enqueued (`none`); a known value is enqueued and the
embedding returns the worker's outcome for that job. -/
def UpdateOrderStatus (db : DB) (sm : StockManager) (orderID : Nat)
    (status : String) : Option UpdateOutcome :=
  if validStatus status then some (processUpdateOrder db sm orderID status)
  else none

/-- The rejection reasons of the `CancelOrder` entry point:
"订单不存在" and "只有待支付的订单可以取消". -/
inductive CancelReject where
  | notFound
  | notPending
deriving DecidableEq

/-- What the `CancelOrder` entry point did before (possibly) enqueueing:
the rejection if any, the database and stock states as the handler left
them, and the job it enqueued if it accepted. -/
structure CancelOutcome where
  reject : Option CancelReject
  db : DB
  sm : StockManager
  job : Option OrderJob

/-- src/order.go lines 620-668, `CancelOrder`: load the order by id AND
owner; reject a missing (or foreign) order, reject an order whose
current status is not `pending`, and only otherwise build and enqueue a
cancel job.  The handler performs no writes before enqueueing. -/
def CancelOrder (db : DB) (sm : StockManager) (orderID userID : Nat) :
    CancelOutcome :=
  match findOrderOfUser db orderID userID with
  | none => ⟨some .notFound, db, sm, none⟩
  | some order =>
    if order.status != OrderStatusPending then
      ⟨some .notPending, db, sm, none⟩
    else
      ⟨none, db, sm, some ⟨orderID, userID, "cancel", OrderStatusCancelled⟩⟩

/-! ## Concrete fixtures used by witnesses and counterexamples -/

/-- An empty store (no rows at all). -/
def dbEmpty : DB := ⟨[], [], [], []⟩

/-- A manager whose only slot is product 1 holding 5. -/
def smOneSlot5 : StockManager := emptyStockManager.setSlot 1 5

/-- A manager whose only slot is product 1 holding 2. -/
def smOneSlot2 : StockManager := emptyStockManager.setSlot 1 2

/-- A serial history against one slot: a successful deduction, its
restoration, then a deduction of the full stock. -/
def opsC2 : List StockOp := [.deduct 1, .restore 1, .deduct 2]

/-- The all-statements-succeed failure schedule. -/
def noFailure : Nat → Bool := fun _ => false

/-- Failure schedule that fails exactly write statement 3 — for a
one-item create-order transaction that is the sales-counter
`UpdateColumn` (statement 0 is the order insert, 1 the order-item
insert, 2 the cart delete, 4 the commit). -/
def fsSales : Nat → Bool := fun n => n == 3

/-- Failure schedule that fails exactly write statement 0, the order
insert. -/
def fsInsert : Nat → Bool := fun n => n == 0

/-- Scenario-B shaped store: user 1 has cart rows 10 (product 1, qty 2)
and 11 (product 2, qty 1). -/
def dbC1 : DB := ⟨[], [⟨10, 1, 1, 2⟩, ⟨11, 1, 2, 1⟩], [], []⟩

/-- Scenario-B shaped manager: slot 1 holds 5, slot 2 holds 0. -/
def smC1 : StockManager := (emptyStockManager.setSlot 1 5).setSlot 2 0

/-- Create request referencing cart rows 10 and 11. -/
def reqC1 : CreateOrderRequest := ⟨"addr", [10, 11]⟩

/-- A store with one product (price 5, stock 10, no sales) and one cart
row for user 1 (product 1, qty 2). -/
def dbC4 : DB := ⟨[⟨1, 5, 10, 0, 1⟩], [⟨1, 1, 1, 2⟩], [], []⟩

/-- Create request referencing the single cart row 1. -/
def reqOne : CreateOrderRequest := ⟨"addr", [1]⟩

/-- Like `dbC4` but with an existing order (id 7, another user) already
holding order number `generateOrderNumber 5 7`. -/
def dbC5 : DB :=
  ⟨[⟨1, 5, 10, 0, 1⟩], [⟨1, 1, 1, 2⟩],
   [⟨7, 2, generateOrderNumber 5 7, 0, OrderStatusPaid, "x"⟩], []⟩

/-- A store holding a single delivered order. -/
def dbC6 : DB := ⟨[], [], [⟨1, 1, "OM1", 0, OrderStatusDelivered, "a"⟩], []⟩

/-- A store holding a pending order with two items: (product 1, qty 2)
and (product 2, qty 1). -/
def dbC7 : DB :=
  ⟨[], [], [⟨1, 1, "OM1", 0, OrderStatusPending, "a"⟩],
   [⟨1, 1, 2, 5⟩, ⟨1, 2, 1, 7⟩]⟩

/-- A store holding a pending order with one item (product 1, qty 2). -/
def dbC9 : DB :=
  ⟨[], [], [⟨1, 1, "OM1", 0, OrderStatusPending, "a"⟩], [⟨1, 1, 2, 5⟩]⟩

/-- Slot 1 holds 3: the pre-order stock 5 minus the order's quantity 2. -/
def smC9 : StockManager := emptyStockManager.setSlot 1 3

/-- A store holding a single paid order of user 1. -/
def dbC10 : DB := ⟨[], [], [⟨1, 1, "OM1", 0, OrderStatusPaid, "a"⟩], []⟩

/-! ## Helper lemmas -/

/-- Reading a slot just written. -/
theorem setSlot_same (sm : StockManager) (pid : Nat) (v : Int) :
    (sm.setSlot pid v).stocks pid = some v := by
  simp [StockManager.setSlot]

/-- Writing one slot leaves the others unchanged. -/
theorem setSlot_other (sm : StockManager) (pid p : Nat) (v : Int)
    (h : p ≠ pid) : (sm.setSlot pid v).stocks p = sm.stocks p := by
  simp [StockManager.setSlot, h]

/-- On an already-initialized slot, `getStockChannel` hands out the held
value and changes nothing. -/
theorem getStockChannel_of_slot (sm : StockManager) (db : DB) (pid : Nat)
    (v : Int) (h : sm.stocks pid = some v) :
    sm.getStockChannel db pid = some (v, sm) := by
  simp [StockManager.getStockChannel, h]

/-- A deduction against an initialized slot holding less than requested
fails with the current-vs-requested error and puts the value back. -/
theorem DeductStock_slot_insufficient (db : DB) (sm : StockManager)
    (pid : Nat) (v q : Int) (h : sm.stocks pid = some v) (hlt : v < q) :
    sm.DeductStock db pid q = (some (.insufficient pid v q), sm) := by
  simp [StockManager.DeductStock, getStockChannel_of_slot sm db pid v h, hlt]

/-- A deduction against an initialized slot holding enough succeeds and
puts back the difference. -/
theorem DeductStock_slot_ok (db : DB) (sm : StockManager) (pid : Nat)
    (v q : Int) (h : sm.stocks pid = some v) (hge : ¬ v < q) :
    sm.DeductStock db pid q = (none, sm.setSlot pid (v - q)) := by
  simp [StockManager.DeductStock, getStockChannel_of_slot sm db pid v h, hge]

/-- A restoration against an initialized slot always succeeds and puts
back the sum. -/
theorem RestoreStock_slot (db : DB) (sm : StockManager) (pid : Nat)
    (v q : Int) (h : sm.stocks pid = some v) :
    sm.RestoreStock db pid q = (none, sm.setSlot pid (v + q)) := by
  simp [StockManager.RestoreStock, getStockChannel_of_slot sm db pid v h]

/-- Invariant of serial stock histories on one slot: the held value
stays defined and non-negative, and value + deducted − restored is
conserved. -/
theorem runStockOps_invariant (db : DB) (pid : Nat) :
    ∀ (ops : List StockOp) (acc : OpsAcc) (v : Int),
      acc.sm.stocks pid = some v → 0 ≤ v →
      (∀ op ∈ ops, 0 ≤ op.qty) →
      ∃ w, (runStockOps db pid acc ops).sm.stocks pid = some w ∧ 0 ≤ w ∧
        w + (runStockOps db pid acc ops).deducted
          - (runStockOps db pid acc ops).restored
          = v + acc.deducted - acc.restored := by
  intro ops
  induction ops with
  | nil =>
    intro acc v h hv _
    exact ⟨v, h, hv, rfl⟩
  | cons op rest ih =>
    intro acc v h hv hq
    have hqop : 0 ≤ op.qty := hq op (by simp)
    have hqrest : ∀ o ∈ rest, 0 ≤ o.qty := fun o ho => hq o (by simp [ho])
    cases op with
    | deduct q =>
      by_cases hlt : v < q
      · simp only [runStockOps, DeductStock_slot_insufficient db acc.sm pid v q h hlt]
        exact ih ⟨acc.sm, acc.deducted, acc.restored⟩ v h hv hqrest
      · simp only [runStockOps, DeductStock_slot_ok db acc.sm pid v q h hlt]
        obtain ⟨w, hw, hw0, heq⟩ :=
          ih ⟨acc.sm.setSlot pid (v - q), acc.deducted + q, acc.restored⟩
            (v - q) (setSlot_same acc.sm pid (v - q)) (by omega) hqrest
        refine ⟨w, hw, hw0, ?_⟩
        simp only at heq
        omega
    | restore q =>
      simp only [runStockOps, RestoreStock_slot db acc.sm pid v q h]
      obtain ⟨w, hw, hw0, heq⟩ :=
        ih ⟨acc.sm.setSlot pid (v + q), acc.deducted, acc.restored + q⟩
          (v + q) (setSlot_same acc.sm pid (v + q))
          (by simp only [StockOp.qty] at hqop; omega) hqrest
      refine ⟨w, hw, hw0, ?_⟩
      simp only at heq
      omega

/-- One loop iteration never touches the orders table. -/
theorem txItemEffects_orders (fs : Nat → Bool) (idx : Nat) (db : DB)
    (ci : CartItem) (oid : Nat) :
    (txItemEffects fs idx db ci oid).orders = db.orders := by
  simp only [txItemEffects]
  split <;> rfl

/-- One loop iteration deletes exactly the loaded cart row (by its
primary key). -/
theorem txItemEffects_cartItems (fs : Nat → Bool) (idx : Nat) (db : DB)
    (ci : CartItem) (oid : Nat) :
    (txItemEffects fs idx db ci oid).cartItems
      = db.cartItems.filter (fun c => c.id != ci.id) := by
  simp only [txItemEffects]
  split <;> rfl

/-- One loop iteration appends exactly one order-item row, referencing
the order being created. -/
theorem txItemEffects_orderItems (fs : Nat → Bool) (idx : Nat) (db : DB)
    (ci : CartItem) (oid : Nat) :
    (txItemEffects fs idx db ci oid).orderItems
      = db.orderItems ++
        [⟨oid, ci.productID, ci.quantity,
          (findProduct db ci.productID).elim 0 (fun p => p.price)⟩] := by
  simp only [txItemEffects]
  split <;> rfl

/-- A successful run of the per-item loop leaves the orders table of the
transaction untouched. -/
theorem createOrderItems_ok_orders (fs : Nat → Bool) (uid oid : Nat) :
    ∀ (ids : List Nat) (ctx ctx2 : TxCtx),
      createOrderItems fs uid oid ids ctx = .ok ctx2 →
      ctx2.db.orders = ctx.db.orders := by
  intro ids
  induction ids with
  | nil =>
    intro ctx ctx2 h
    simp only [createOrderItems] at h
    cases h
    rfl
  | cons itemID rest ih =>
    intro ctx ctx2 h
    simp only [createOrderItems] at h
    cases hfind : ctx.db.cartItems.find?
        (fun c => c.id == itemID && c.userID == uid) with
    | none => simp [hfind] at h
    | some ci =>
      simp only [hfind] at h
      by_cases f1 : fs ctx.idx
      · rw [if_pos f1] at h; simp at h
      · rw [if_neg f1] at h
        by_cases f2 : fs (ctx.idx + 1)
        · rw [if_pos f2] at h; simp at h
        · rw [if_neg f2] at h
          rw [ih _ _ h]
          exact txItemEffects_orders fs ctx.idx ctx.db ci oid

/-- A successful run of the per-item loop only ever removes cart rows. -/
theorem createOrderItems_ok_cart_mem (fs : Nat → Bool) (uid oid : Nat) :
    ∀ (ids : List Nat) (ctx ctx2 : TxCtx),
      createOrderItems fs uid oid ids ctx = .ok ctx2 →
      ∀ c ∈ ctx2.db.cartItems, c ∈ ctx.db.cartItems := by
  intro ids
  induction ids with
  | nil =>
    intro ctx ctx2 h
    simp only [createOrderItems] at h
    cases h
    exact fun c hc => hc
  | cons itemID rest ih =>
    intro ctx ctx2 h
    simp only [createOrderItems] at h
    cases hfind : ctx.db.cartItems.find?
        (fun c => c.id == itemID && c.userID == uid) with
    | none => simp [hfind] at h
    | some ci =>
      simp only [hfind] at h
      by_cases f1 : fs ctx.idx
      · rw [if_pos f1] at h; simp at h
      · rw [if_neg f1] at h
        by_cases f2 : fs (ctx.idx + 1)
        · rw [if_pos f2] at h; simp at h
        · rw [if_neg f2] at h
          intro c hc
          have hc2 := ih _ _ h c hc
          rw [txItemEffects_cartItems] at hc2
          exact (List.mem_filter.mp hc2).1

/-- A successful run of the per-item loop only ever appends order-item
rows. -/
theorem createOrderItems_ok_item_mem (fs : Nat → Bool) (uid oid : Nat) :
    ∀ (ids : List Nat) (ctx ctx2 : TxCtx),
      createOrderItems fs uid oid ids ctx = .ok ctx2 →
      ∀ oi ∈ ctx.db.orderItems, oi ∈ ctx2.db.orderItems := by
  intro ids
  induction ids with
  | nil =>
    intro ctx ctx2 h
    simp only [createOrderItems] at h
    cases h
    exact fun oi hoi => hoi
  | cons itemID rest ih =>
    intro ctx ctx2 h
    simp only [createOrderItems] at h
    cases hfind : ctx.db.cartItems.find?
        (fun c => c.id == itemID && c.userID == uid) with
    | none => simp [hfind] at h
    | some ci =>
      simp only [hfind] at h
      by_cases f1 : fs ctx.idx
      · rw [if_pos f1] at h; simp at h
      · rw [if_neg f1] at h
        by_cases f2 : fs (ctx.idx + 1)
        · rw [if_pos f2] at h; simp at h
        · rw [if_neg f2] at h
          intro oi hoi
          refine ih _ _ h oi ?_
          rw [txItemEffects_orderItems]
          exact List.mem_append_left _ hoi

/-- After a successful run of the per-item loop, no cart row with any of
the referenced ids remains in the transaction. -/
theorem createOrderItems_ok_cart_absent (fs : Nat → Bool) (uid oid : Nat) :
    ∀ (ids : List Nat) (ctx ctx2 : TxCtx),
      createOrderItems fs uid oid ids ctx = .ok ctx2 →
      ∀ id ∈ ids, ∀ c ∈ ctx2.db.cartItems, c.id ≠ id := by
  intro ids
  induction ids with
  | nil =>
    intro ctx ctx2 h id hid
    simp at hid
  | cons itemID rest ih =>
    intro ctx ctx2 h
    simp only [createOrderItems] at h
    cases hfind : ctx.db.cartItems.find?
        (fun c => c.id == itemID && c.userID == uid) with
    | none => simp [hfind] at h
    | some ci =>
      simp only [hfind] at h
      by_cases f1 : fs ctx.idx
      · rw [if_pos f1] at h; simp at h
      · rw [if_neg f1] at h
        by_cases f2 : fs (ctx.idx + 1)
        · rw [if_pos f2] at h; simp at h
        · rw [if_neg f2] at h
          have hci : ci.id = itemID := by
            have := List.find?_some hfind
            simp only [Bool.and_eq_true, beq_iff_eq] at this
            exact this.1
          intro id hid c hc
          rcases List.mem_cons.mp hid with rfl | hid2
          · have hc2 := createOrderItems_ok_cart_mem fs uid oid rest _ _ h c hc
            rw [txItemEffects_cartItems] at hc2
            have := (List.mem_filter.mp hc2).2
            simp only [bne_iff_ne, ne_eq] at this
            rw [← hci]
            exact this
          · exact ih _ _ h id hid2 c hc

/-- After a successful run of the per-item loop, every referenced cart
id has contributed an order-item row referencing the new order. -/
theorem createOrderItems_ok_item_present (fs : Nat → Bool) (uid oid : Nat) :
    ∀ (ids : List Nat) (ctx ctx2 : TxCtx),
      createOrderItems fs uid oid ids ctx = .ok ctx2 →
      ∀ id ∈ ids, ∃ oi ∈ ctx2.db.orderItems, oi.orderID = oid := by
  intro ids
  induction ids with
  | nil =>
    intro ctx ctx2 h id hid
    simp at hid
  | cons itemID rest ih =>
    intro ctx ctx2 h
    simp only [createOrderItems] at h
    cases hfind : ctx.db.cartItems.find?
        (fun c => c.id == itemID && c.userID == uid) with
    | none => simp [hfind] at h
    | some ci =>
      simp only [hfind] at h
      by_cases f1 : fs ctx.idx
      · rw [if_pos f1] at h; simp at h
      · rw [if_neg f1] at h
        by_cases f2 : fs (ctx.idx + 1)
        · rw [if_pos f2] at h; simp at h
        · rw [if_neg f2] at h
          intro id hid
          rcases List.mem_cons.mp hid with rfl | hid2
          · refine ⟨⟨oid, ci.productID, ci.quantity,
              (findProduct ctx.db ci.productID).elim 0 (fun p => p.price)⟩,
              ?_, rfl⟩
            refine createOrderItems_ok_item_mem fs uid oid rest _ _ h _ ?_
            rw [txItemEffects_orderItems]
            exact List.mem_append_right _ (List.mem_singleton.mpr rfl)
          · exact ih _ _ h id hid2

/-- Updating the status of the found order updates exactly that row in
the list the `find?` returns. -/
theorem find?_status_update (oid : Nat) (s : String) :
    ∀ (l : List Order) (o : Order),
      l.find? (fun x => x.id == oid) = some o →
      (l.map (fun x => if x.id == oid then { x with status := s } else x)).find?
        (fun x => x.id == oid) = some { o with status := s } := by
  intro l
  induction l with
  | nil => intro o h; simp at h
  | cons hd tl ih =>
    intro o h
    by_cases hh : hd.id = oid
    · have hb : (hd.id == oid) = true := beq_iff_eq.mpr hh
      rw [@List.find?_cons_of_pos Order (fun x => x.id == oid) hd tl hb] at h
      injection h with h2
      subst h2
      rw [List.map_cons, if_pos hb]
      exact @List.find?_cons_of_pos Order (fun x => x.id == oid) _ _ hb
    · have hb : (hd.id == oid) = false := beq_eq_false_iff_ne.mpr hh
      rw [@List.find?_cons_of_neg Order (fun x => x.id == oid) hd tl
        (by simp [hb])] at h
      rw [List.map_cons, if_neg (by simp [hb])]
      rw [@List.find?_cons_of_neg Order (fun x => x.id == oid) _ _ (by simp [hb])]
      exact ih o h

/-- The status write is visible through a subsequent lookup of the same
order, and only changes its status field. -/
theorem findOrder_setOrderStatus (db : DB) (oid : Nat) (s : String)
    (o : Order) (h : findOrder db oid = some o) :
    findOrder (setOrderStatus db oid s) oid = some { o with status := s } := by
  simp only [findOrder, setOrderStatus] at h ⊢
  exact find?_status_update oid s db.orders o h

/-- The restoration loop issues exactly one (productID, quantity) call
per order item, in order. -/
theorem restoreStockLoop_calls (db : DB) :
    ∀ (items : List OrderItem) (sm : StockManager) (calls : List (Nat × Int)),
      (restoreStockLoop db items sm calls).2
        = calls ++ items.map (fun i => (i.productID, i.quantity)) := by
  intro items
  induction items with
  | nil => intro sm calls; simp [restoreStockLoop]
  | cons hd tl ih =>
    intro sm calls
    simp only [restoreStockLoop]
    rw [ih]
    simp

/-! ## Claims -/

/-- Claim C2: for every product slot with non-negative initial stock S
and every finite serial sequence of `DeductStock`/`RestoreStock` calls
on it with non-negative quantities (quantities are non-negative integers
per the spec's numeric semantics), at every point of the sequence (i.e.
after every prefix) the slot value is defined and never negative, and
the sum of quantities whose deductions succeeded minus the quantities
restored never exceeds S. -/
theorem c2_no_oversell (db : DB) (sm : StockManager) (pid : Nat) (S : Int)
    (ops : List StockOp) (hslot : sm.stocks pid = some S) (hS : 0 ≤ S)
    (hq : ∀ op ∈ ops, 0 ≤ op.qty) :
    ∀ pre, pre <+: ops →
      ((runStockOps db pid ⟨sm, 0, 0⟩ pre).sm.stocks pid).isSome = true ∧
      (∀ w, (runStockOps db pid ⟨sm, 0, 0⟩ pre).sm.stocks pid = some w → 0 ≤ w) ∧
      (runStockOps db pid ⟨sm, 0, 0⟩ pre).deducted
        - (runStockOps db pid ⟨sm, 0, 0⟩ pre).restored ≤ S := by
  intro pre hpre
  have hqpre : ∀ op ∈ pre, 0 ≤ op.qty := fun op hop => hq op (hpre.subset hop)
  obtain ⟨w, hw, hw0, heq⟩ :=
    runStockOps_invariant db pid pre ⟨sm, 0, 0⟩ S hslot hS hqpre
  refine ⟨by simp [hw], ?_, ?_⟩
  · intro u hu
    rw [hw] at hu
    injection hu with h
    omega
  · simp at heq
    omega

/-- Witness for C2 at a concrete history: slot 1 starts at 2 and runs
[deduct 1, restore 1, deduct 2]. -/
theorem c2_no_oversell_witness :
    ((runStockOps dbEmpty 1 ⟨smOneSlot2, 0, 0⟩ opsC2).sm.stocks 1).isSome = true ∧
    (runStockOps dbEmpty 1 ⟨smOneSlot2, 0, 0⟩ opsC2).deducted
      - (runStockOps dbEmpty 1 ⟨smOneSlot2, 0, 0⟩ opsC2).restored ≤ 2 := by
  have h := c2_no_oversell dbEmpty smOneSlot2 1 2 opsC2 (by decide) (by decide)
    (by decide) opsC2 ⟨[], by simp⟩
  exact ⟨h.1, h.2.2⟩

/-- Claim C3: for a slot holding c ≥ 0 and requested quantity q ≥ 0,
`DeductStock` fails with the error carrying both the current and the
requested quantity and leaves the manager (hence the slot) unchanged
when c < q, and succeeds leaving exactly c − q when q ≤ c — the result
is never clamped. -/
theorem c3_deduct_semantics (db : DB) (sm : StockManager) (pid : Nat)
    (c q : Int) (hslot : sm.stocks pid = some c) (hc : 0 ≤ c) (hq : 0 ≤ q) :
    (c < q →
      sm.DeductStock db pid q = (some (.insufficient pid c q), sm)) ∧
    (q ≤ c →
      (sm.DeductStock db pid q).1 = none ∧
      (sm.DeductStock db pid q).2.stocks pid = some (c - q)) := by
  constructor
  · intro hlt
    exact DeductStock_slot_insufficient db sm pid c q hslot hlt
  · intro hge
    rw [DeductStock_slot_ok db sm pid c q hslot (by omega)]
    exact ⟨rfl, setSlot_same sm pid (c - q)⟩

/-- Witness for C3 at both branches: slot 1 holds 5; requesting 7 fails
carrying (current 5, requested 7) and leaves the slot at 5; requesting 3
succeeds leaving 2. -/
theorem c3_deduct_semantics_witness :
    smOneSlot5.DeductStock dbEmpty 1 7
      = (some (.insufficient 1 5 7), smOneSlot5) ∧
    (smOneSlot5.DeductStock dbEmpty 1 3).1 = none ∧
    (smOneSlot5.DeductStock dbEmpty 1 3).2.stocks 1 = some 2 := by
  refine ⟨?_, ?_, ?_⟩
  · exact (c3_deduct_semantics dbEmpty smOneSlot5 1 5 7 (by decide) (by decide)
      (by decide)).1 (by decide)
  · exact ((c3_deduct_semantics dbEmpty smOneSlot5 1 5 3 (by decide) (by decide)
      (by decide)).2 (by decide)).1
  · have h := ((c3_deduct_semantics dbEmpty smOneSlot5 1 5 3 (by decide) (by decide)
      (by decide)).2 (by decide)).2
    simpa using h

/-- Claim C8: a successful deduction of q from an initialized slot,
followed (with no interleaving operation on that product) by a
restoration of q, returns the slot to exactly its prior value. -/
theorem c8_deduct_restore_roundtrip (db : DB) (sm : StockManager)
    (pid : Nat) (c q : Int) (hslot : sm.stocks pid = some c) (hq : 0 ≤ q)
    (hle : q ≤ c) :
    (sm.DeductStock db pid q).1 = none ∧
    ((sm.DeductStock db pid q).2.RestoreStock db pid q).2.stocks pid = some c := by
  rw [DeductStock_slot_ok db sm pid c q hslot (by omega)]
  refine ⟨rfl, ?_⟩
  rw [RestoreStock_slot db (sm.setSlot pid (c - q)) pid (c - q) q
    (setSlot_same sm pid (c - q))]
  rw [setSlot_same]
  congr 1
  ring

/-- Witness for C8: slot 1 holds 5; deduct 3 then restore 3 returns the
slot to 5. -/
theorem c8_deduct_restore_roundtrip_witness :
    (smOneSlot5.DeductStock dbEmpty 1 3).1 = none ∧
    ((smOneSlot5.DeductStock dbEmpty 1 3).2.RestoreStock dbEmpty 1 3).2.stocks 1
      = some 5 :=
  c8_deduct_restore_roundtrip dbEmpty smOneSlot5 1 5 3 (by decide) (by decide)
    (by decide)

/-- Claim C1 is FALSE on the source: this closed run is Scenario B
(cart rows 10 and 11 for user 1, slot 1 holding 5, slot 2 holding 0;
the second item requests 1 of product 2).  The job fails with the
insufficient-stock error, but product 1's slot ends at 3, NOT at the 5
it held before the job — `checkInventoryForOrder` returns on the first
failed deduction without any `Restore` of the deductions already
granted, contradicting "every product's slot holds the same quantity it
held before the job started". -/
theorem c1_counterexample :
    (processCreateOrder noFailure dbC1 smC1 1 reqC1 0 0).1
      = .error (.inventoryCheckFailed (.stock (.insufficient 2 0 1)))
    ∧ smC1.stocks 1 = some 5
    ∧ (processCreateOrder noFailure dbC1 smC1 1 reqC1 0 0).2.stocks 1 = some 3
    ∧ (processCreateOrder noFailure dbC1 smC1 1 reqC1 0 0).2.stocks 1
        ≠ smC1.stocks 1 := by
  exact ⟨rfl, rfl, rfl, by decide⟩

/-- Claim C1 (amended): when the stock deduction for a referenced cart
item fails, the whole create job does fail with the insufficient-stock
error (and no order is persisted: the observable database is
unchanged), but the deduction already granted to the earlier cart item
of the same job is NOT rolled back — its product slot keeps the
deducted value, while the failing product's slot keeps its value. -/
theorem c1_failed_deduction_not_rolled_back
    (fs : Nat → Bool) (db : DB) (sm : StockManager) (uid idA idB : Nat)
    (ciA ciB : CartItem) (va vb : Int) (addr : String) (ts rnd : Nat)
    (hA : findCartItem db idA uid = some ciA)
    (hB : findCartItem db idB uid = some ciB)
    (hpid : ciA.productID ≠ ciB.productID)
    (hvA : sm.stocks ciA.productID = some va)
    (hvB : sm.stocks ciB.productID = some vb)
    (hokA : ¬ va < ciA.quantity)
    (hfailB : vb < ciB.quantity) :
    (processCreateOrder fs db sm uid ⟨addr, [idA, idB]⟩ ts rnd).1
      = .error (.inventoryCheckFailed
          (.stock (.insufficient ciB.productID vb ciB.quantity)))
    ∧ (processCreateOrder fs db sm uid ⟨addr, [idA, idB]⟩ ts rnd).2.stocks
        ciA.productID = some (va - ciA.quantity)
    ∧ (processCreateOrder fs db sm uid ⟨addr, [idA, idB]⟩ ts rnd).2.stocks
        ciB.productID = some vb
    ∧ dbAfterProcessCreate fs db sm uid ⟨addr, [idA, idB]⟩ ts rnd = db := by
  have hsmB : (sm.setSlot ciA.productID (va - ciA.quantity)).stocks ciB.productID
      = some vb := by
    rw [setSlot_other sm ciA.productID ciB.productID (va - ciA.quantity)
      (Ne.symm hpid)]
    exact hvB
  have hcheck : checkInventoryForOrder db sm uid [idA, idB]
      = (some (.stock (.insufficient ciB.productID vb ciB.quantity)),
         sm.setSlot ciA.productID (va - ciA.quantity)) := by
    simp only [checkInventoryForOrder, hA, hB,
      DeductStock_slot_ok db sm ciA.productID va ciA.quantity hvA hokA,
      DeductStock_slot_insufficient db
        (sm.setSlot ciA.productID (va - ciA.quantity))
        ciB.productID vb ciB.quantity hsmB hfailB]
  have hmain : processCreateOrder fs db sm uid ⟨addr, [idA, idB]⟩ ts rnd
      = (.error (.inventoryCheckFailed
            (.stock (.insufficient ciB.productID vb ciB.quantity))),
         sm.setSlot ciA.productID (va - ciA.quantity)) := by
    simp only [processCreateOrder, hcheck]
  refine ⟨by rw [hmain], ?_, ?_, ?_⟩
  · rw [hmain]
    exact setSlot_same sm ciA.productID (va - ciA.quantity)
  · rw [hmain]
    exact hsmB
  · simp only [dbAfterProcessCreate, hmain]

/-- Witness for the amended C1 theorem at the Scenario-B input. -/
theorem c1_failed_deduction_not_rolled_back_witness :
    (processCreateOrder noFailure dbC1 smC1 1 ⟨"addr", [10, 11]⟩ 0 0).1
      = .error (.inventoryCheckFailed (.stock (.insufficient 2 0 1)))
    ∧ (processCreateOrder noFailure dbC1 smC1 1 ⟨"addr", [10, 11]⟩ 0 0).2.stocks 1
        = some 3
    ∧ (processCreateOrder noFailure dbC1 smC1 1 ⟨"addr", [10, 11]⟩ 0 0).2.stocks 2
        = some 0
    ∧ dbAfterProcessCreate noFailure dbC1 smC1 1 ⟨"addr", [10, 11]⟩ 0 0 = dbC1 := by
  have h := c1_failed_deduction_not_rolled_back noFailure dbC1 smC1 1 10 11
    ⟨10, 1, 1, 2⟩ ⟨11, 1, 2, 1⟩ 5 0 "addr" 0 0 (by decide) (by decide) (by decide)
    (by decide) (by decide) (by decide) (by decide)
  refine ⟨h.1, ?_, h.2.2.1, h.2.2.2⟩
  have h21 := h.2.1
  norm_num at h21
  exact h21

/-- Claim C4 is FALSE on the source: with a failure schedule that fails
exactly the sales-counter `UpdateColumn` (write statement 3 of this
one-item transaction), the transaction still commits — the order row,
its item row and the cart deletion are observable while the sales
counter stays 0, because the source discards that statement's error.
The second conjunct shows the identical run with no failure, where the
counter does reach 2: statement 3 is the increment, it failed in the
first run, and the other effects of that run remained observable —
contradicting "if any step of the sequence fails, none of them are
observable". -/
theorem c4_counterexample :
    createOrderInDB fsSales dbC4 1 reqOne 10 5 7
      = .ok ⟨[⟨1, 5, 10, 0, 1⟩], [],
             [⟨1, 1, generateOrderNumber 5 7, 10, OrderStatusPending, "addr"⟩],
             [⟨1, 1, 2, 5⟩]⟩
    ∧ createOrderInDB noFailure dbC4 1 reqOne 10 5 7
      = .ok ⟨[⟨1, 5, 10, 2, 1⟩], [],
             [⟨1, 1, generateOrderNumber 5 7, 10, OrderStatusPending, "addr"⟩],
             [⟨1, 1, 2, 5⟩]⟩ := by
  exact ⟨rfl, rfl⟩

/-- Claim C4 (amended): the persistence scope is all-or-nothing for
every statement whose error the source checks: on any error the
observable database is exactly the pre-transaction one, and on success
the order row, an item row for every referenced cart item, and the
deletion of every referenced cart row are all observable together.
Only the sales-counter increments are exempt: their statement's error
is discarded, so a failed increment neither aborts the scope nor
prevents the commit (see the counterexample). -/
theorem c4_atomicity_except_sales
    (fs : Nat → Bool) (db : DB) (uid : Nat) (req : CreateOrderRequest)
    (amt : Int) (ts rnd : Nat) :
    (∀ e, createOrderInDB fs db uid req amt ts rnd = .error e →
      dbAfterCreateOrder fs db uid req amt ts rnd = db)
    ∧ (∀ db2, createOrderInDB fs db uid req amt ts rnd = .ok db2 →
        (∃ o ∈ db2.orders, o.id = freshOrderID db ∧ o.userID = uid ∧
          o.orderNo = generateOrderNumber ts rnd ∧
          o.status = OrderStatusPending ∧ o.totalAmount = amt ∧
          o.shippingAddress = req.shippingAddress)
        ∧ (∀ id ∈ req.cartItemIDs,
            (∀ c ∈ db2.cartItems, c.id ≠ id)
            ∧ ∃ oi ∈ db2.orderItems, oi.orderID = freshOrderID db)) := by
  constructor
  · intro e he
    simp only [dbAfterCreateOrder, he]
  · intro db2 h
    simp only [createOrderInDB] at h
    split at h
    · exact absurd h (by simp)
    · split at h
      · exact absurd h (by simp)
      · split at h
        · exact absurd h (by simp)
        · rename_i ctx hloop hcommit
          injection h with h2
          subst h2
          constructor
          · have horders := createOrderItems_ok_orders fs uid (freshOrderID db)
              req.cartItemIDs _ _ hloop
            refine ⟨⟨freshOrderID db, uid, generateOrderNumber ts rnd, amt,
              OrderStatusPending, req.shippingAddress⟩, ?_, rfl, rfl, rfl, rfl,
              rfl, rfl⟩
            rw [horders]
            exact List.mem_append_right _ (List.mem_singleton.mpr rfl)
          · intro id hid
            exact ⟨createOrderItems_ok_cart_absent fs uid (freshOrderID db)
                req.cartItemIDs _ _ hloop id hid,
              createOrderItems_ok_item_present fs uid (freshOrderID db)
                req.cartItemIDs _ _ hloop id hid⟩

/-- Witness for the amended C4 theorem: with a schedule failing the
order insert (a checked statement), the observable database after the
call is the original one. -/
theorem c4_atomicity_except_sales_witness :
    dbAfterCreateOrder fsInsert dbC4 1 reqOne 10 5 7 = dbC4 :=
  (c4_atomicity_except_sales fsInsert dbC4 1 reqOne 10 5 7).1
    .orderCreateFailed rfl

/-- Claim C5 is FALSE on the source: `createOrderInDB` attempts the
order insert exactly once.  Here the store already holds an order with
the number that `generateOrderNumber 5 7` produces: the whole order
creation fails outright with the insert error — no regenerated number,
no retry — although the identical request with a fresh random suffix
(second conjunct, `rnd = 8`) would have succeeded and committed. -/
theorem c5_counterexample :
    createOrderInDB noFailure dbC5 1 reqOne 10 5 7 = .error .orderCreateFailed
    ∧ createOrderInDB noFailure dbC5 1 reqOne 10 5 8
      = .ok ⟨[⟨1, 5, 10, 2, 1⟩], [],
             [⟨7, 2, generateOrderNumber 5 7, 0, OrderStatusPaid, "x"⟩,
              ⟨8, 1, generateOrderNumber 5 8, 10, OrderStatusPending, "addr"⟩],
             [⟨8, 1, 2, 5⟩]⟩ := by
  exact ⟨rfl, rfl⟩

/-- Claim C5 (amended): a violation of the order-number uniqueness
constraint is NOT detected specially and NOT retried: the insert is
attempted once with the single generated number, and a collision with
any existing order aborts the whole order creation with the insert
error, leaving the observable database unchanged. -/
theorem c5_no_retry_on_collision (db : DB) (uid : Nat)
    (req : CreateOrderRequest) (amt : Int) (ts rnd : Nat) (fs : Nat → Bool)
    (hcoll : db.orders.any (fun o => o.orderNo == generateOrderNumber ts rnd)
      = true) :
    createOrderInDB fs db uid req amt ts rnd = .error .orderCreateFailed
    ∧ dbAfterCreateOrder fs db uid req amt ts rnd = db := by
  have hguard : (fs 0
      || db.orders.any (fun o => o.orderNo == generateOrderNumber ts rnd))
      = true := by
    rw [hcoll, Bool.or_true]
  have h1 : createOrderInDB fs db uid req amt ts rnd
      = .error .orderCreateFailed := by
    simp only [createOrderInDB]
    rw [if_pos hguard]
  exact ⟨h1, by simp only [dbAfterCreateOrder, h1]⟩

/-- Witness for the amended C5 theorem at the concrete colliding store. -/
theorem c5_no_retry_on_collision_witness :
    createOrderInDB noFailure dbC5 1 reqOne 10 5 7 = .error .orderCreateFailed
    ∧ dbAfterCreateOrder noFailure dbC5 1 reqOne 10 5 7 = dbC5 :=
  c5_no_retry_on_collision dbC5 1 reqOne 10 5 7 noFailure (by decide)

/-- Claim C6: the status-update entry point accepts a requested status
iff it is one of the five known values; for an existing order the job
then applies the requested status without consulting the order's
current status — for EVERY current status (the hypothesis places no
constraint on `o.status`), so any transition between the five values,
including delivered → pending, is accepted. -/
theorem c6_status_accept_and_apply (db : DB) (sm : StockManager)
    (oid : Nat) (s : String) (o : Order) (h : findOrder db oid = some o) :
    (validStatus s = true ↔
      (s = OrderStatusPending ∨ s = OrderStatusPaid ∨ s = OrderStatusShipped ∨
       s = OrderStatusDelivered ∨ s = OrderStatusCancelled))
    ∧ (validStatus s = false → UpdateOrderStatus db sm oid s = none)
    ∧ (validStatus s = true →
        UpdateOrderStatus db sm oid s = some (processUpdateOrder db sm oid s)
        ∧ (processUpdateOrder db sm oid s).err = none
        ∧ findOrder (processUpdateOrder db sm oid s).db oid
            = some { o with status := s }) := by
  refine ⟨?_, ?_, ?_⟩
  · simp only [validStatus, Bool.or_eq_true, beq_iff_eq]
    tauto
  · intro hv
    simp [UpdateOrderStatus, hv]
  · intro hv
    refine ⟨by simp [UpdateOrderStatus, hv], ?_, ?_⟩
    · simp only [processUpdateOrder, h]
      split <;> rfl
    · have happ := findOrder_setOrderStatus db oid s o h
      simp only [processUpdateOrder, h]
      split
      · exact happ
      · exact happ

/-- Witness for C6: a delivered order accepts the transition back to
pending, an illegal jump in the spec's edge table. -/
theorem c6_status_accept_and_apply_witness :
    UpdateOrderStatus dbC6 emptyStockManager 1 OrderStatusPending
      = some (processUpdateOrder dbC6 emptyStockManager 1 OrderStatusPending)
    ∧ (processUpdateOrder dbC6 emptyStockManager 1 OrderStatusPending).err = none
    ∧ findOrder
        (processUpdateOrder dbC6 emptyStockManager 1 OrderStatusPending).db 1
      = some ⟨1, 1, "OM1", 0, OrderStatusPending, "a"⟩ := by
  have h := (c6_status_accept_and_apply dbC6 emptyStockManager 1
    OrderStatusPending ⟨1, 1, "OM1", 0, OrderStatusDelivered, "a"⟩
    (by decide)).2.2 (by decide)
  exact ⟨h.1, h.2.1, h.2.2⟩

/-- Claim C7: a status-update job on an existing order triggers the
detached restoration exactly when the requested status is `cancelled`,
and that restoration issues exactly one `Restore` call per order item
of that order, carrying that item's product id and quantity; any other
status issues no restoration call and leaves the stock manager
untouched. -/
theorem c7_cancel_restores_items (db : DB) (sm : StockManager)
    (oid : Nat) (s : String) (o : Order) (h : findOrder db oid = some o) :
    ((processUpdateOrder db sm oid s).restoreTriggered
        = (s == OrderStatusCancelled))
    ∧ (s = OrderStatusCancelled →
        (processUpdateOrder db sm oid s).restoreCalls
          = (db.orderItems.filter (fun i => i.orderID == oid)).map
              (fun i => (i.productID, i.quantity)))
    ∧ (s ≠ OrderStatusCancelled →
        (processUpdateOrder db sm oid s).restoreCalls = []
        ∧ (processUpdateOrder db sm oid s).sm = sm) := by
  refine ⟨?_, ?_, ?_⟩
  · by_cases hc : (s == OrderStatusCancelled) = true
    · simp [processUpdateOrder, h, hc]
    · rw [Bool.not_eq_true] at hc
      simp [processUpdateOrder, h, hc]
  · intro hs
    subst hs
    simp only [processUpdateOrder, h, beq_self_eq_true, if_true,
      restoreOrderStock]
    rw [restoreStockLoop_calls]
    simp [setOrderStatus]
  · intro hs
    have hb : (s == OrderStatusCancelled) = false :=
      beq_eq_false_iff_ne.mpr hs
    simp [processUpdateOrder, h, hb]

/-- Witness for C7: cancelling the pending order of `dbC7` issues the
two calls (product 1, qty 2) and (product 2, qty 1); shipping it issues
none. -/
theorem c7_cancel_restores_items_witness :
    (processUpdateOrder dbC7 emptyStockManager 1
        OrderStatusCancelled).restoreTriggered = true
    ∧ (processUpdateOrder dbC7 emptyStockManager 1
        OrderStatusCancelled).restoreCalls = [(1, 2), (2, 1)]
    ∧ (processUpdateOrder dbC7 emptyStockManager 1
        OrderStatusShipped).restoreCalls = [] := by
  have h := c7_cancel_restores_items dbC7 emptyStockManager 1
    OrderStatusCancelled ⟨1, 1, "OM1", 0, OrderStatusPending, "a"⟩ (by decide)
  have h2 := c7_cancel_restores_items dbC7 emptyStockManager 1
    OrderStatusShipped ⟨1, 1, "OM1", 0, OrderStatusPending, "a"⟩ (by decide)
  refine ⟨by simpa using h.1, ?_, (h2.2.2 (by decide)).1⟩
  have hc := h.2.1 rfl
  rw [hc]
  rfl

/-- Claim C9: the cancellation-triggered restoration is not idempotent.
An order (here with a single item of quantity q > 0) whose product slot
holds v = S − q, S being the pre-order stock, is cancelled twice: the
second update job succeeds again (the current `cancelled` status is
never consulted), triggers the restoration again, and leaves the slot
at S + q, strictly above its pre-order value S. -/
theorem c9_cancel_restore_not_idempotent (db : DB) (sm : StockManager)
    (oid : Nat) (o : Order) (item : OrderItem) (v S q : Int)
    (h : findOrder db oid = some o)
    (hitems : db.orderItems.filter (fun i => i.orderID == oid) = [item])
    (hq : item.quantity = q)
    (hslot : sm.stocks item.productID = some v)
    (hv : v = S - q) (hpos : 0 < q) :
    (processUpdateOrder db sm oid OrderStatusCancelled).err = none
    ∧ (processUpdateOrder
        (processUpdateOrder db sm oid OrderStatusCancelled).db
        (processUpdateOrder db sm oid OrderStatusCancelled).sm oid
        OrderStatusCancelled).err = none
    ∧ (processUpdateOrder
        (processUpdateOrder db sm oid OrderStatusCancelled).db
        (processUpdateOrder db sm oid OrderStatusCancelled).sm oid
        OrderStatusCancelled).restoreTriggered = true
    ∧ (processUpdateOrder
        (processUpdateOrder db sm oid OrderStatusCancelled).db
        (processUpdateOrder db sm oid OrderStatusCancelled).sm oid
        OrderStatusCancelled).sm.stocks item.productID = some (S + q)
    ∧ S < S + q := by
  subst hq
  have hrest1 : restoreOrderStock (setOrderStatus db oid OrderStatusCancelled)
      sm oid
      = (sm.setSlot item.productID (v + item.quantity),
         [(item.productID, item.quantity)]) := by
    simp only [restoreOrderStock]
    rw [show (setOrderStatus db oid OrderStatusCancelled).orderItems
      = db.orderItems from rfl, hitems]
    simp only [restoreStockLoop,
      RestoreStock_slot (setOrderStatus db oid OrderStatusCancelled) sm
        item.productID v item.quantity hslot]
    simp
  have hout1 : processUpdateOrder db sm oid OrderStatusCancelled
      = ⟨none, setOrderStatus db oid OrderStatusCancelled,
         sm.setSlot item.productID (v + item.quantity), true,
         [(item.productID, item.quantity)]⟩ := by
    simp only [processUpdateOrder, h, beq_self_eq_true, if_true, hrest1]
  have hfind2 : findOrder (setOrderStatus db oid OrderStatusCancelled) oid
      = some { o with status := OrderStatusCancelled } :=
    findOrder_setOrderStatus db oid OrderStatusCancelled o h
  have hslot2 : (sm.setSlot item.productID (v + item.quantity)).stocks
      item.productID = some (v + item.quantity) :=
    setSlot_same sm item.productID (v + item.quantity)
  have hrest2 : restoreOrderStock
      (setOrderStatus (setOrderStatus db oid OrderStatusCancelled) oid
        OrderStatusCancelled)
      (sm.setSlot item.productID (v + item.quantity)) oid
      = ((sm.setSlot item.productID (v + item.quantity)).setSlot
          item.productID (v + item.quantity + item.quantity),
         [(item.productID, item.quantity)]) := by
    simp only [restoreOrderStock]
    rw [show (setOrderStatus (setOrderStatus db oid OrderStatusCancelled) oid
      OrderStatusCancelled).orderItems = db.orderItems from rfl, hitems]
    simp only [restoreStockLoop,
      RestoreStock_slot
        (setOrderStatus (setOrderStatus db oid OrderStatusCancelled) oid
          OrderStatusCancelled)
        (sm.setSlot item.productID (v + item.quantity))
        item.productID (v + item.quantity) item.quantity hslot2]
    simp
  have hout2 : processUpdateOrder (setOrderStatus db oid OrderStatusCancelled)
      (sm.setSlot item.productID (v + item.quantity)) oid OrderStatusCancelled
      = ⟨none,
         setOrderStatus (setOrderStatus db oid OrderStatusCancelled) oid
           OrderStatusCancelled,
         (sm.setSlot item.productID (v + item.quantity)).setSlot
           item.productID (v + item.quantity + item.quantity), true,
         [(item.productID, item.quantity)]⟩ := by
    simp only [processUpdateOrder, hfind2, beq_self_eq_true, if_true, hrest2]
  have harith : v + item.quantity + item.quantity = S + item.quantity := by
    omega
  refine ⟨?_, ?_, ?_, ?_, by omega⟩
  · simp only [hout1]
  · simp only [hout1, hout2]
  · simp only [hout1, hout2]
  · simp only [hout1, hout2, setSlot_same]
    rw [harith]

/-- Witness for C9 at `dbC9`/`smC9`: pre-order stock 5, order quantity
2, slot at 3; two cancel jobs leave the slot at 7 > 5. -/
theorem c9_cancel_restore_not_idempotent_witness :
    (processUpdateOrder dbC9 smC9 1 OrderStatusCancelled).err = none
    ∧ (processUpdateOrder
        (processUpdateOrder dbC9 smC9 1 OrderStatusCancelled).db
        (processUpdateOrder dbC9 smC9 1 OrderStatusCancelled).sm 1
        OrderStatusCancelled).err = none
    ∧ (processUpdateOrder
        (processUpdateOrder dbC9 smC9 1 OrderStatusCancelled).db
        (processUpdateOrder dbC9 smC9 1 OrderStatusCancelled).sm 1
        OrderStatusCancelled).restoreTriggered = true
    ∧ (processUpdateOrder
        (processUpdateOrder dbC9 smC9 1 OrderStatusCancelled).db
        (processUpdateOrder dbC9 smC9 1 OrderStatusCancelled).sm 1
        OrderStatusCancelled).sm.stocks 1 = some 7
    ∧ (5 : Int) < 7 := by
  have h := c9_cancel_restore_not_idempotent dbC9 smC9 1
    ⟨1, 1, "OM1", 0, OrderStatusPending, "a"⟩ ⟨1, 1, 2, 5⟩ 3 5 2
    (by decide) (by decide) (by decide) (by decide) (by decide) (by decide)
  refine ⟨h.1, h.2.1, h.2.2.1, ?_, by norm_num⟩
  have h4 := h.2.2.2.1
  norm_num at h4
  exact h4

/-- Claim C10: the dedicated cancel entry point rejects — before any
job is enqueued — exactly those requests for which no pending order
with that id belongs to the calling user (the order is missing, belongs
to another user, or is not in `pending`); a rejected cancel leaves the
database (orders, items, cart) and every stock slot unchanged and
enqueues nothing. -/
theorem c10_cancel_rejects_nonpending (db : DB) (sm : StockManager)
    (oid uid : Nat) :
    ((CancelOrder db sm oid uid).reject.isSome = true ↔
      ¬ ∃ o, findOrderOfUser db oid uid = some o
          ∧ o.status = OrderStatusPending)
    ∧ ((CancelOrder db sm oid uid).reject.isSome = true →
        (CancelOrder db sm oid uid).db = db
        ∧ (CancelOrder db sm oid uid).sm = sm
        ∧ (CancelOrder db sm oid uid).job = none) := by
  cases hfind : findOrderOfUser db oid uid with
  | none =>
    constructor
    · simp [CancelOrder, hfind]
    · intro _
      simp [CancelOrder, hfind]
  | some o =>
    by_cases hs : o.status = OrderStatusPending
    · constructor
      · simp [CancelOrder, hfind, hs]
      · intro hrej
        exfalso
        simp [CancelOrder, hfind, hs] at hrej
    · constructor
      · simp [CancelOrder, hfind, bne_iff_ne, hs]
      · intro _
        simp [CancelOrder, hfind, bne_iff_ne, hs]

/-- Witness for C10: user 1's order 1 is `paid`, so the cancel entry
point rejects and leaves everything unchanged with no job enqueued. -/
theorem c10_cancel_rejects_nonpending_witness :
    (CancelOrder dbC10 emptyStockManager 1 1).db = dbC10
    ∧ (CancelOrder dbC10 emptyStockManager 1 1).sm = emptyStockManager
    ∧ (CancelOrder dbC10 emptyStockManager 1 1).job = none :=
  (c10_cancel_rejects_nonpending dbC10 emptyStockManager 1 1).2 (by decide)

end GoMall
